import Mathlib

/-!
Verification of the Orafinite server core (Rust, axum) against its
natural-language specification, via a shallow embedding in Lean 4.

Conventions used throughout:
* Rust HashMap values are modelled as association lists (List (String × α));
  only membership/emptiness and pointwise conversion are relied upon.
* Machine integers are modelled as Nat / Int with explicit modular casts
  where the source performs "as" casts (see i32_of_u64, u32_of_i32,
  usize_of_i64, u64_sub below).
* f32 values (risk scores, thresholds) are modelled as rationals.
* UUIDs and timestamps generated inside a Rust function are passed in as
  explicit parameters (fresh_id, now), making the functions pure.
* Fallible database / Redis fetches are modelled by an explicit result type
  (DbFetch) mirroring Result<Option<Row>, sqlx.Error>.
-/

namespace Orafinite

/-- Result of a fallible fetch returning at most one row,
mirroring Result of Option of Row in the Rust source. -/
inductive DbFetch (α : Type) where
  | ok (row : Option α) : DbFetch α
  | err (msg : String) : DbFetch α
deriving Repr, DecidableEq

/-- Two-s complement interpretation of the low 32 bits of a Nat,
modelling a Rust "u64 as i32" style truncating cast. -/
def i32_of_u64 (n : Nat) : Int :=
  let m : Nat := n % 2 ^ 32
  if m < 2 ^ 31 then (m : Int) else (m : Int) - 2 ^ 32

/-- Reinterpretation of an i32 value as u32, modelling "q as u32". -/
def u32_of_i32 (q : Int) : Nat :=
  (q % 2 ^ 32).toNat

/-- Reinterpretation of an i64 value as usize (64-bit), modelling
"active_scan_count as usize". -/
def usize_of_i64 (n : Int) : Nat :=
  (n % 2 ^ 64).toNat

/-- Wrapping u64 subtraction, modelling "now - last_failure" on u64. -/
def u64_sub (a b : Nat) : Nat :=
  (a + 2 ^ 64 - b) % 2 ^ 64

/-- Rust trim().is_empty(): the string consists only of whitespace. -/
def is_blank (s : String) : Bool :=
  s.data.all (fun c => c.isWhitespace)

-- ============================================
-- Scan mode and scanner configuration (api/guard.rs)
-- ============================================

/-- JSON API representation of which scanning to perform
(api/guard.rs, enum ApiScanMode). -/
inductive ApiScanMode where
  | PromptOnly
  | OutputOnly
  | Both
deriving Repr, DecidableEq

/-- Rust Default impl for ApiScanMode. -/
def ApiScanMode.default : ApiScanMode := .PromptOnly

/-- Per-scanner configuration stored inside GuardConfig
(middleware/auth.rs, struct GuardScannerEntry). -/
structure GuardScannerEntry where
  enabled : Bool
  threshold : ℚ
  settings_json : String
deriving Repr, DecidableEq

/-- Per-scanner configuration at the API level
(api/guard.rs, struct ApiScannerConfig). -/
structure ApiScannerConfig where
  enabled : Bool
  threshold : ℚ
  settings_json : String
deriving Repr, DecidableEq

/-- Conversion From GuardScannerEntry for ApiScannerConfig
(api/guard.rs impl From). -/
def ApiScannerConfig.ofGuardEntry (e : GuardScannerEntry) : ApiScannerConfig :=
  { enabled := e.enabled
    threshold := e.threshold
    settings_json := e.settings_json }

/-- Protection profile persisted per API key in api_key.guard_config
(middleware/auth.rs, struct GuardConfig). Scanner maps are modelled as
association lists. -/
structure GuardConfig where
  scan_mode : String
  input_scanners : List (String × GuardScannerEntry)
  output_scanners : List (String × GuardScannerEntry)
  sanitize : Bool
  fail_fast : Bool
deriving Repr, DecidableEq

/-- Validated API key data returned by validate_api_key
(middleware/auth.rs, struct ApiKeyInfo). UUIDs are modelled as Nat. -/
structure ApiKeyInfo where
  id : Nat
  organization_id : Nat
  scopes : List String
  rate_limit_rpm : Int
  guard_config : Option GuardConfig
deriving Repr, DecidableEq

/-- Request body of the advanced-scan endpoint
(api/guard.rs, struct AdvancedScanRequest). -/
structure AdvancedScanRequest where
  prompt : String
  output : String
  scan_mode : ApiScanMode
  input_scanners : List (String × ApiScannerConfig)
  output_scanners : List (String × ApiScannerConfig)
  sanitize : Bool
  fail_fast : Bool
deriving Repr, DecidableEq

/-- Parse a scan_mode string (from per-key config or the X-Scan-Type
request header) into ApiScanMode; None on unrecognised values
(api/guard.rs, fn parse_scan_mode). -/
def parse_scan_mode (s : String) : Option ApiScanMode :=
  match s with
  | "prompt_only" => some .PromptOnly
  | "output_only" => some .OutputOnly
  | "both" => some .Both
  | _ => none

/-- Effective scan configuration after merging per-key config with the
request (api/guard.rs, struct ResolvedScanConfig). -/
structure ResolvedScanConfig where
  scan_mode : ApiScanMode
  input_scanners : List (String × ApiScannerConfig)
  output_scanners : List (String × ApiScannerConfig)
  sanitize : Bool
  fail_fast : Bool
deriving Repr, DecidableEq

/-- Resolve the effective scan configuration (api/guard.rs,
fn resolve_scan_config). The X-Scan-Type header is modelled as an
Option String (None when absent or not valid ASCII). Both arms of the
Rust match return Ok, so the Result wrapper is dropped here. -/
def resolve_scan_config (api_key : ApiKeyInfo) (x_scan_type_header : Option String)
    (req : AdvancedScanRequest) : ResolvedScanConfig :=
  let req_has_input_scanners := !req.input_scanners.isEmpty
  let req_has_output_scanners := !req.output_scanners.isEmpty
  let body_has_explicit_config := req_has_input_scanners || req_has_output_scanners
  match api_key.guard_config, body_has_explicit_config with
  | some gc, false =>
    let key_mode := (parse_scan_mode gc.scan_mode).getD .PromptOnly
    let effective_mode :=
      if key_mode = .Both then
        (x_scan_type_header.bind (fun s => parse_scan_mode s)).getD key_mode
      else
        key_mode
    let input_scanners := gc.input_scanners.map
      (fun kv => (kv.1, ApiScannerConfig.ofGuardEntry kv.2))
    let output_scanners := gc.output_scanners.map
      (fun kv => (kv.1, ApiScannerConfig.ofGuardEntry kv.2))
    { scan_mode := effective_mode
      input_scanners := input_scanners
      output_scanners := output_scanners
      sanitize := gc.sanitize
      fail_fast := gc.fail_fast }
  | _, _ =>
    { scan_mode := req.scan_mode
      input_scanners := req.input_scanners
      output_scanners := req.output_scanners
      sanitize := req.sanitize
      fail_fast := req.fail_fast }

/-- Input validation of advanced_scan against the resolved scan mode
(api/guard.rs, fn advanced_scan, validation block): returns the error
code of the first failing check, or none when the inputs pass. -/
def advanced_scan_validate (resolved_mode : ApiScanMode) (prompt output : String) :
    Option String :=
  if (resolved_mode = .PromptOnly || resolved_mode = .Both) && is_blank prompt then
    some "MISSING_PROMPT"
  else if (resolved_mode = .OutputOnly || resolved_mode = .Both) && is_blank output then
    some "MISSING_OUTPUT"
  else if prompt.length > 64 * 1024 then
    some "PROMPT_TOO_LONG"
  else if output.length > 64 * 1024 then
    some "OUTPUT_TOO_LONG"
  else
    none

-- ============================================
-- API key validation (middleware/auth.rs)
-- ============================================

/-- Raw api_key row as returned by the validation UPDATE ... RETURNING
query (middleware/auth.rs, fn validate_api_key). The guard_config column
is modelled post JSON-deserialization: the Rust code maps the JSONB value
through serde and folds parse failures into None with and_then / ok. -/
structure ApiKeyDbRow where
  id : Nat
  organization_id : Nat
  scopes : Option (List String)
  rate_limit_rpm : Option Int
  guard_config : Option GuardConfig
deriving Repr, DecidableEq

/-- Mapping from a fetched row to ApiKeyInfo (middleware/auth.rs,
fn validate_api_key, Ok(Some(row)) arm). NULL rate_limit_rpm falls back
to unwrap_or(60). -/
def api_key_info_of_row (row : ApiKeyDbRow) : ApiKeyInfo :=
  { id := row.id
    organization_id := row.organization_id
    scopes := row.scopes.getD []
    rate_limit_rpm := row.rate_limit_rpm.getD 60
    guard_config := row.guard_config }

/-- Full validate_api_key result handling (middleware/auth.rs,
fn validate_api_key): Ok(Some) maps the row, Ok(None) is an invalid key,
Err is a database error. -/
def validate_api_key (result : DbFetch ApiKeyDbRow) : Except String ApiKeyInfo :=
  match result with
  | .ok (some row) => .ok (api_key_info_of_row row)
  | .ok none => .error "Invalid API key"
  | .err e => .error ("Database error: " ++ e)

-- ============================================
-- Per-minute rate limiter (middleware/rate_limit.rs)
-- ============================================

/-- State of one Redis minute-window counter: the optional counter value
and its TTL in seconds (negative when the key has no expiry). -/
structure MinuteWindow where
  count : Option Nat
  ttl : Int
deriving Repr, DecidableEq

/-- Per-minute limiter (middleware/rate_limit.rs, fn check_rate_limit),
happy path over the modelled window state. Returns
((allowed, remaining, reset_time_seconds), new window state). The Redis
get unwrap_or(0), the INCR, the conditional EXPIRE on a fresh key and the
saturating_sub for remaining are translated directly. -/
def check_rate_limit (w : MinuteWindow) (max_requests : Nat) (window_seconds : Nat) :
    (Bool × Nat × Nat) × MinuteWindow :=
  let current := w.count.getD 0
  if current ≥ max_requests then
    ((false, 0, (max w.ttl 0).toNat), w)
  else
    let new_count := current + 1
    let w' : MinuteWindow :=
      { count := some new_count
        ttl := if new_count = 1 then (window_seconds : Int) else w.ttl }
    let remaining := max_requests - new_count
    ((true, remaining, (max w'.ttl 0).toNat), w')

/-- Window length constant RATE_LIMIT_WINDOW_SECONDS. -/
def RATE_LIMIT_WINDOW_SECONDS : Nat := 60

/-- The limiter call made by scan_prompt and the other guard handlers
(api/guard.rs, fn scan_prompt): the limit passed to check_rate_limit is
api_key.rate_limit_rpm as u32. -/
def scan_prompt_rate_check (api_key : ApiKeyInfo) (w : MinuteWindow) :
    (Bool × Nat × Nat) × MinuteWindow :=
  check_rate_limit w (u32_of_i32 api_key.rate_limit_rpm) RATE_LIMIT_WINDOW_SECONDS

-- ============================================
-- Monthly quota resolution (api/guard.rs, middleware/rate_limit.rs)
-- ============================================

/-- Monthly quota for the Basic plan
(middleware/rate_limit.rs, MONTHLY_QUOTA_BASIC). -/
def MONTHLY_QUOTA_BASIC : Nat := 10000

/-- Modelled from the spec: fn monthly_quota_for_plan is imported by
api/guard.rs from middleware/rate_limit.rs but its definition is not in
the provided sources. The spec fixes only that the plan-to-quota mapping
is a pure function over plans free, basic, pro, enterprise and that the
Basic quota is MONTHLY_QUOTA_BASIC = 10000; the other tiers are modelled
with distinct representative values (the theorems below rely only on the
Basic value and on pro differing from the Basic default). -/
def monthly_quota_for_plan (plan : String) : Nat :=
  match plan with
  | "free" => 1000
  | "basic" => MONTHLY_QUOTA_BASIC
  | "pro" => 100000
  | "enterprise" => 1000000
  | _ => MONTHLY_QUOTA_BASIC

/-- Plan / quota columns of the api_key row read by lookup_api_key_quota
(api/guard.rs step 1 query: SELECT plan, monthly_quota FROM api_key). -/
structure ApiKeyPlanRow where
  plan : Option String
  monthly_quota : Option Int
deriving Repr, DecidableEq

/-- Steps 3 and 4 of lookup_api_key_quota (api/guard.rs): subscription
plan first, then organization plan (nullable column defaulting to free),
then the MONTHLY_QUOTA_BASIC fallback. Subscription query failures and
empty results both fall through, as in the source. -/
def quota_fallthrough (subRes : DbFetch String)
    (orgRes : DbFetch (Option String)) : Nat :=
  match subRes with
  | .ok (some sub_plan) => monthly_quota_for_plan sub_plan
  | _ =>
    match orgRes with
    | .ok (some org_plan) => monthly_quota_for_plan (org_plan.getD "free")
    | _ => MONTHLY_QUOTA_BASIC

/-- Monthly quota lookup (api/guard.rs, fn lookup_api_key_quota).
The three database queries are modelled by their outcomes:
rowRes is the api_key plan/quota row, subRes the active-subscription
plan_id (step 3), orgRes the organization plan column (step 4, with the
column itself nullable). Control flow, early returns and the i32-to-u32
casts follow the source. -/
def lookup_api_key_quota (rowRes : DbFetch ApiKeyPlanRow)
    (subRes : DbFetch String) (orgRes : DbFetch (Option String)) : Nat :=
  match rowRes with
  | .ok (some row) =>
    let plan_str := row.plan.getD "basic"
    if plan_str ≠ "basic" then
      match row.monthly_quota with
      | some q => u32_of_i32 q
      | none => monthly_quota_for_plan plan_str
    else
      match row.monthly_quota with
      | some q =>
        if q ≠ (MONTHLY_QUOTA_BASIC : Int) then
          u32_of_i32 q
        else
          quota_fallthrough subRes orgRes
      | none => quota_fallthrough subRes orgRes
  | .err _ => MONTHLY_QUOTA_BASIC
  | .ok none => MONTHLY_QUOTA_BASIC

/-- Steps 2 to 5 of the quota order exactly as the claim words it:
api_key.plan if set and not basic, then subscription, then organization,
then MONTHLY_QUOTA_BASIC. -/
def claim_quota_plan_steps (row : ApiKeyPlanRow) (subRes : DbFetch String)
    (orgRes : DbFetch (Option String)) : Nat :=
  match row.plan with
  | some p =>
    if p ≠ "basic" then
      monthly_quota_for_plan p
    else
      quota_fallthrough subRes orgRes
  | none => quota_fallthrough subRes orgRes

/-- The quota resolution order exactly as the claim and spec word it:
(1) api_key.monthly_quota if set and different from the Basic default,
(2) api_key.plan if set and not basic, (3) active subscription plan,
(4) organization plan, (5) MONTHLY_QUOTA_BASIC; first non-default source
wins. Written from the wording of the spec, for comparison with
lookup_api_key_quota which is written from the source. -/
def claim_quota_order (row : ApiKeyPlanRow) (subRes : DbFetch String)
    (orgRes : DbFetch (Option String)) : Nat :=
  match row.monthly_quota with
  | some q =>
    if q ≠ (MONTHLY_QUOTA_BASIC : Int) then
      u32_of_i32 q
    else
      claim_quota_plan_steps row subRes orgRes
  | none => claim_quota_plan_steps row subRes orgRes

/-- The amended resolution order, matching the source: when api_key.plan
is set and not basic, a set monthly_quota wins outright (even when it
equals the Basic default), else the plan-derived quota; only when the
plan is basic or unset does the not-equal-to-Basic-default test on
monthly_quota apply before falling through to subscription, organization
and the Basic constant. -/
def amended_quota_order (row : ApiKeyPlanRow) (subRes : DbFetch String)
    (orgRes : DbFetch (Option String)) : Nat :=
  let plan_str := row.plan.getD "basic"
  if plan_str ≠ "basic" then
    match row.monthly_quota with
    | some q => u32_of_i32 q
    | none => monthly_quota_for_plan plan_str
  else
    match row.monthly_quota with
    | some q =>
      if q ≠ (MONTHLY_QUOTA_BASIC : Int) then u32_of_i32 q
      else quota_fallthrough subRes orgRes
    | none => quota_fallthrough subRes orgRes

-- ============================================
-- Scan responses and audit entries (api/guard.rs, db/write_buffer.rs)
-- ============================================

/-- One detected threat (api/guard.rs, struct ThreatDetection). -/
structure ThreatDetection where
  threat_type : String
  confidence : ℚ
  description : String
  severity : String
deriving Repr, DecidableEq

/-- Response body of the single-scan endpoint
(api/guard.rs, struct ScanPromptResponse). Timestamps are Nat ticks. -/
structure ScanPromptResponse where
  id : Nat
  safe : Bool
  sanitized_prompt : Option String
  threats : List ThreatDetection
  risk_score : ℚ
  latency_ms : Nat
  cached : Bool
  timestamp : Nat
  threat_categories : Option (List String)
deriving Repr, DecidableEq

/-- Audit record queued to the write buffer
(db/write_buffer.rs, struct GuardLogEntry). The threats_detected
serde_json Value holds the serialized threat list and is modelled by the
list itself. -/
structure GuardLogEntry where
  id : Nat
  organization_id : Option Nat
  api_key_id : Option Nat
  prompt_hash : String
  is_safe : Bool
  risk_score : ℚ
  threats_detected : List ThreatDetection
  latency_ms : Int
  cached : Bool
  ip_address : Option String
  prompt_text : Option String
  threat_categories : List String
  scan_options : String
  user_agent : Option String
  request_type : String
  sanitized_prompt : Option String
  response_id : Option Nat
  created_at : Nat
deriving Repr, DecidableEq

/-- Constructor GuardLogEntry::new_scan (db/write_buffer.rs). The fresh
UUID and the Utc::now() stamp drawn inside the Rust function are passed
in as fresh_id and now. Safe entries drop the prompt text; the
request_type is fixed to scan (callers overwrite it afterwards where the
source does). -/
def GuardLogEntry.new_scan (organization_id : Option Nat) (api_key_id : Option Nat)
    (prompt_hash : String) (is_safe : Bool) (risk_score : ℚ)
    (threats_detected : List ThreatDetection) (latency_ms : Int) (cached : Bool)
    (ip_address : Option String) (prompt_text : Option String)
    (threat_categories : List String) (scan_options : String)
    (user_agent : Option String) (sanitized_prompt : Option String)
    (response_id : Option Nat) (fresh_id : Nat) (now : Nat) : GuardLogEntry :=
  let stored_prompt := if is_safe then none else prompt_text
  { id := fresh_id
    organization_id := organization_id
    api_key_id := api_key_id
    prompt_hash := prompt_hash
    is_safe := is_safe
    risk_score := risk_score
    threats_detected := threats_detected
    latency_ms := latency_ms
    cached := cached
    ip_address := ip_address
    prompt_text := stored_prompt
    threat_categories := threat_categories
    scan_options := scan_options
    user_agent := user_agent
    request_type := "scan"
    sanitized_prompt := sanitized_prompt
    response_id := response_id
    created_at := now }

/-- The serve-from-cache path of scan_prompt (api/guard.rs, cache-hit arm
after a successful deserialization of the cached response): assign a new
response id, set cached to true, keep latency_ms, re-stamp the timestamp,
then build the audit entry from the mutated response, passing the
original ML latency and cached = true. Returns the HTTP response paired
with the queued audit entry. -/
def serve_from_cache (cached_response : ScanPromptResponse)
    (api_key : ApiKeyInfo) (prompt_hash : String) (req_prompt : String)
    (ip : Option String) (scan_options : String) (user_agent : Option String)
    (response_id : Nat) (entry_id : Nat) (now : Nat) :
    ScanPromptResponse × GuardLogEntry :=
  let resp : ScanPromptResponse :=
    { cached_response with
        id := response_id
        cached := true
        timestamp := now }
  let threat_categories := resp.threats.map (fun t => t.threat_type)
  let entry := GuardLogEntry.new_scan
    (some api_key.organization_id) (some api_key.id) prompt_hash
    resp.safe resp.risk_score resp.threats
    (i32_of_u64 resp.latency_ms) true ip (some req_prompt)
    threat_categories scan_options user_agent resp.sanitized_prompt
    (some response_id) entry_id now
  (resp, entry)

-- ============================================
-- Audit-entry construction sites (api/guard.rs)
-- ============================================

/-- The five places that build and queue a GuardLogEntry
(api/guard.rs: scan_prompt cache hit, scan_prompt fresh scan,
validate_output, batch_scan items, advanced_scan). -/
inductive QueueSite where
  | scanCacheHit
  | scanFresh
  | validateOutput
  | batchItem
  | advancedScan
deriving Repr, DecidableEq

/-- The prompt_text argument each construction site passes to new_scan:
the scan and batch paths always pass Some of the scanned text, while
validate_output and advanced_scan pass Some of the text only when the
result is unsafe, None otherwise. -/
def site_prompt_text_arg (site : QueueSite) (is_safe : Bool) (text : String) :
    Option String :=
  match site with
  | .scanCacheHit => some text
  | .scanFresh => some text
  | .batchItem => some text
  | .validateOutput => if is_safe then none else some text
  | .advancedScan => if is_safe then none else some text

/-- The request_type each site leaves on the entry: new_scan writes scan
and validate_output, batch_scan and advanced_scan overwrite it
afterwards (advanced_scan uses its resolved-mode string). -/
def site_request_type (site : QueueSite) (advanced_mode : ApiScanMode) : String :=
  match site with
  | .scanCacheHit => "scan"
  | .scanFresh => "scan"
  | .validateOutput => "validate"
  | .batchItem => "batch"
  | .advancedScan =>
    match advanced_mode with
    | .PromptOnly => "advanced_prompt"
    | .OutputOnly => "advanced_output"
    | .Both => "advanced_both"

/-- The entry a given site queues: new_scan with the site specific
prompt_text argument, then the site specific request_type overwrite. -/
def queued_entry (site : QueueSite) (advanced_mode : ApiScanMode)
    (organization_id api_key_id : Option Nat) (prompt_hash : String)
    (is_safe : Bool) (risk_score : ℚ) (threats : List ThreatDetection)
    (latency_ms : Int) (cached : Bool) (ip : Option String) (text : String)
    (threat_categories : List String) (scan_options : String)
    (user_agent : Option String) (sanitized : Option String)
    (response_id : Option Nat) (fresh_id : Nat) (now : Nat) : GuardLogEntry :=
  let entry := GuardLogEntry.new_scan organization_id api_key_id prompt_hash
    is_safe risk_score threats latency_ms cached ip
    (site_prompt_text_arg site is_safe text) threat_categories scan_options
    user_agent sanitized response_id fresh_id now
  { entry with request_type := site_request_type site advanced_mode }

-- ============================================
-- ML gateway circuit breaker (api/mod.rs)
-- ============================================

/-- Circuit breaker configuration (api/mod.rs). -/
def CIRCUIT_FAILURE_THRESHOLD : Nat := 5

/-- Reset timeout in seconds before an Open breaker admits a probe. -/
def CIRCUIT_RESET_TIMEOUT_SECS : Nat := 30

/-- Breaker states (api/mod.rs, enum CircuitState). -/
inductive CircuitState where
  | Closed
  | Open
  | HalfOpen
deriving Repr, DecidableEq

/-- Breaker data (api/mod.rs, struct CircuitBreaker): the atomic failure
counter, the last failure timestamp in epoch seconds, and the state. -/
structure CircuitBreaker where
  failure_count : Nat
  last_failure_time : Nat
  state : CircuitState
deriving Repr, DecidableEq

/-- Initial breaker (CircuitBreaker::new). -/
def CircuitBreaker.init : CircuitBreaker :=
  { failure_count := 0, last_failure_time := 0, state := .Closed }

/-- record_success (api/mod.rs): clear the counter, force Closed. -/
def CircuitBreaker.record_success (cb : CircuitBreaker) : CircuitBreaker :=
  { cb with failure_count := 0, state := .Closed }

/-- record_failure (api/mod.rs): increment the counter, stamp the
failure time, and open the circuit when the counter reaches
CIRCUIT_FAILURE_THRESHOLD. -/
def CircuitBreaker.record_failure (cb : CircuitBreaker) (now : Nat) : CircuitBreaker :=
  let count := cb.failure_count + 1
  let cb' := { cb with failure_count := count, last_failure_time := now }
  if count ≥ CIRCUIT_FAILURE_THRESHOLD then
    { cb' with state := .Open }
  else
    cb'

/-- can_attempt (api/mod.rs): Closed and HalfOpen admit; Open admits and
moves to HalfOpen once the reset timeout has elapsed since the last
failure (u64 subtraction as in the source), else denies. Returns the
decision together with the possibly updated breaker. -/
def CircuitBreaker.can_attempt (cb : CircuitBreaker) (now : Nat) :
    Bool × CircuitBreaker :=
  match cb.state with
  | .Closed => (true, cb)
  | .Open =>
    if u64_sub now cb.last_failure_time ≥ CIRCUIT_RESET_TIMEOUT_SECS then
      (true, { cb with state := .HalfOpen })
    else
      (false, cb)
  | .HalfOpen => (true, cb)

/-- Events applied to the breaker by AppState::get_ml_client
(api/mod.rs): a can_attempt gate, then record_success or record_failure
after client construction. -/
inductive CbEvent where
  | success
  | failure (t : Nat)
  | attempt (t : Nat)
deriving Repr, DecidableEq

/-- One breaker transition per event. -/
def cb_step (cb : CircuitBreaker) : CbEvent → CircuitBreaker
  | .success => cb.record_success
  | .failure t => cb.record_failure t
  | .attempt t => (cb.can_attempt t).2

/-- Breaker reached by a sequence of events from the initial state. -/
def cb_run (tr : List CbEvent) : CircuitBreaker :=
  tr.foldl cb_step CircuitBreaker.init

-- ============================================
-- SSE tickets (api/events.rs)
-- ============================================

/-- Data stored under an SSE ticket key
(api/events.rs, struct SseTicketPayload). -/
structure SseTicketPayload where
  user_id : String
  email : String
  name : Option String
  session_id : String
deriving Repr, DecidableEq

/-- Authenticated user data (middleware/auth.rs,
struct AuthenticatedUser). -/
structure AuthenticatedUser where
  user_id : String
  email : String
  name : Option String
  session_id : String
deriving Repr, DecidableEq

/-- The Redis key under which a ticket is stored
(api/events.rs, SSE_TICKET_PREFIX followed by the ticket). -/
def sse_ticket_key (ticket : String) : String :=
  "sse_ticket:" ++ ticket

/-- The live portion of the ticket store: an association list from Redis
key to the stored payload. TTL expiry is modelled by the key simply being
absent once expired; mint writes a serialized SseTicketPayload, so a live
key always parses back, and the store holds the parsed payload. -/
def TicketStore : Type := List (String × SseTicketPayload)

/-- Redis GET on the modelled ticket store. -/
def store_get (store : TicketStore) (key : String) : Option SseTicketPayload :=
  match store with
  | [] => none
  | kv :: rest => if kv.1 = key then some kv.2 else store_get rest key

/-- Redis DEL on the modelled ticket store. -/
def store_del (store : TicketStore) (key : String) : TicketStore :=
  store.filter (fun kv => kv.1 ≠ key)

/-- Redis GETDEL on the ticket store: return the value under the key, if
any, and remove the key, atomically. -/
def ticket_getdel (store : TicketStore) (key : String) :
    Option SseTicketPayload × TicketStore :=
  (store_get store key, store_del store key)

/-- redeem_sse_ticket (api/events.rs): atomic GETDEL on the ticket key,
then parse the payload and build the AuthenticatedUser. Returns None when
the key was absent (expired, never minted, or already redeemed). -/
def redeem_sse_ticket (store : TicketStore) (ticket : String) :
    Option AuthenticatedUser × TicketStore :=
  let key := sse_ticket_key ticket
  let (payload, store') := ticket_getdel store key
  match payload with
  | some ticket_data =>
    (some { user_id := ticket_data.user_id
            email := ticket_data.email
            name := ticket_data.name
            session_id := ticket_data.session_id }, store')
  | none => (none, store')

/-- Outcome of the ticket branch of guard_events authentication. -/
inductive TicketAuthOutcome where
  | authed (user : AuthenticatedUser)
  | ticketInvalid401
deriving Repr, DecidableEq

/-- The ticket arm of guard_events (api/events.rs, fn guard_events, the
query.ticket branch): an empty ticket is rejected with 401
TICKET_INVALID; otherwise the ticket is redeemed, and a failed redemption
is also rejected with 401 TICKET_INVALID. -/
def guard_events_ticket_auth (store : TicketStore) (ticket : String) :
    TicketAuthOutcome × TicketStore :=
  if ticket = "" then
    (.ticketInvalid401, store)
  else
    match redeem_sse_ticket store ticket with
    | (some user, store') => (.authed user, store')
    | (none, store') => (.ticketInvalid401, store')

-- ============================================
-- Garak risk score and concurrency gate (api/scan.rs)
-- ============================================

/-- One vulnerability reported by the sidecar
(grpc/ml_client.rs, struct VulnerabilityInfo); fields not used by the
risk computation are kept for fidelity. -/
structure VulnerabilityInfo where
  probe_name : String
  probe_class : String
  category : String
  severity : String
  description : String
  attack_prompt : String
  model_response : String
  recommendation : String
  success_rate : ℚ
  detector_name : String
  probe_duration_ms : Int
deriving Repr, DecidableEq

/-- Severity contribution used by calculate_risk_score
(api/scan.rs, the match inside the loop). -/
def severity_contribution (severity : String) : ℚ :=
  match severity with
  | "critical" => 1
  | "high" => 0.75
  | "medium" => 0.5
  | "low" => 0.25
  | _ => 0.1

/-- calculate_risk_score (api/scan.rs): 0 for an empty list, else the
accumulated severity contributions divided by the count, capped at 1. -/
def calculate_risk_score (vulnerabilities : List VulnerabilityInfo) : ℚ :=
  if vulnerabilities.isEmpty then
    0
  else
    let score := vulnerabilities.foldl
      (fun acc vuln => acc + severity_contribution vuln.severity) 0
    min (score / (vulnerabilities.length : ℚ)) 1

/-- The risk score written on the scan row when the sidecar reports
completion (api/scan.rs, poll loop, completed arm: UPDATE scan SET
status = completed, risk_score = calculate_risk_score(vulnerabilities)). -/
def completed_scan_risk_score (vulnerabilities : List VulnerabilityInfo) : ℚ :=
  calculate_risk_score vulnerabilities

/-- Concurrency cap for Garak scans (api/scan.rs, MAX_CONCURRENT_SCANS). -/
def MAX_CONCURRENT_SCANS : Nat := 4

/-- Outcome of the admission concurrency check in start_scan. -/
inductive ConcurrencyGate where
  | tooManyScans429
  | proceed
deriving Repr, DecidableEq

/-- The concurrency gate of start_scan (api/scan.rs): the COUNT of scans
in queued or running states is read from the database with unwrap_or(0)
on query failure, cast i64 to usize, and compared against
MAX_CONCURRENT_SCANS. -/
def start_scan_concurrency_gate (countRes : Except String Int) : ConcurrencyGate :=
  let active_scan_count : Int :=
    match countRes with
    | .ok n => n
    | .error _ => 0
  if usize_of_i64 active_scan_count ≥ MAX_CONCURRENT_SCANS then
    .tooManyScans429
  else
    .proceed

-- ============================================
-- Batch scan (api/guard.rs, fn batch_scan)
-- ============================================

/-- One threat as delivered by the gRPC client
(grpc/ml_client.rs, struct Threat). -/
structure GrpcThreat where
  threat_type : String
  confidence : ℚ
  description : String
  severity : String
deriving Repr, DecidableEq

/-- Result of the simple scan RPC (grpc/ml_client.rs, struct ScanResult). -/
structure GrpcScanResult where
  safe : Bool
  sanitized_prompt : Option String
  risk_score : ℚ
  threats : List GrpcThreat
deriving Repr, DecidableEq

/-- Field-by-field conversion from a gRPC threat to the API
ThreatDetection, as in the map inside batch_scan. -/
def ThreatDetection.ofGrpc (t : GrpcThreat) : ThreatDetection :=
  { threat_type := t.threat_type
    confidence := t.confidence
    description := t.description
    severity := t.severity }

/-- Per-item entry of the batch response
(api/guard.rs, struct BatchScanResultItem). -/
structure BatchScanResultItem where
  id : String
  success : Bool
  result : Option ScanPromptResponse
  error : Option String
deriving Repr, DecidableEq

/-- One item of the parallel batch loop (api/guard.rs, fn batch_scan,
the per-prompt future): empty and oversized prompts fail in place;
a successful sidecar scan is wrapped in a ScanPromptResponse whose
latency_ms is literally 0 and cached literally false; an RPC error is
reported in place. The fresh UUID and timestamp are parameters. -/
def batch_item (idx : Nat) (item_id : Option String) (prompt : String)
    (outcome : Except String GrpcScanResult) (fresh_id : Nat) (now : Nat) :
    BatchScanResultItem :=
  let id := item_id.getD (toString idx)
  if is_blank prompt then
    { id := id, success := false, result := none
      error := some "Prompt cannot be empty" }
  else if prompt.length > 32 * 1024 then
    { id := id, success := false, result := none
      error := some "Prompt exceeds maximum length of 32KB" }
  else
    match outcome with
    | .ok result =>
      let threats := result.threats.map ThreatDetection.ofGrpc
      let threat_cats := threats.map (fun t => t.threat_type)
      { id := id
        success := true
        result := some
          { id := fresh_id
            safe := result.safe
            sanitized_prompt := result.sanitized_prompt
            threats := threats
            risk_score := result.risk_score
            latency_ms := 0
            cached := false
            timestamp := now
            threat_categories := if threat_cats.isEmpty then none else some threat_cats }
        error := none }
    | .error e =>
      { id := id, success := false, result := none, error := some e }

/-- The audit entry batch_scan queues for one item (api/guard.rs, the
logging loop after join_all): only items whose result is Some are logged;
the entry carries the total wall-clock batch latency, cached = false, and
request_type batch. Returns None for failed items, which queue nothing. -/
def batch_audit_entry (api_key : ApiKeyInfo) (prompt : String)
    (item : BatchScanResultItem) (total_latency_ms : Nat)
    (client_ip : Option String) (prompt_hash : String) (scan_options : String)
    (user_agent : Option String) (fresh_id : Nat) (now : Nat) :
    Option GuardLogEntry :=
  match item.result with
  | some scan_result =>
    let threat_cats := scan_result.threats.map (fun t => t.threat_type)
    let entry := GuardLogEntry.new_scan
      (some api_key.organization_id) (some api_key.id) prompt_hash
      scan_result.safe scan_result.risk_score scan_result.threats
      (i32_of_u64 total_latency_ms) false client_ip (some prompt)
      threat_cats scan_options user_agent scan_result.sanitized_prompt
      (some scan_result.id) fresh_id now
    some { entry with request_type := "batch" }
  | none => none

-- ============================================
-- Helper lemmas
-- ============================================

/-- A u64 value below 2 to the 31 survives the cast to i32 unchanged. -/
lemma i32_of_u64_of_lt {n : Nat} (h : n < 2 ^ 31) : i32_of_u64 n = (n : Int) := by
  unfold i32_of_u64
  have hm : n % 2 ^ 32 = n := Nat.mod_eq_of_lt (lt_trans h (by norm_num))
  simp only [hm]
  rw [if_pos h]

/-- A nonnegative i64 value in range survives the cast to usize. -/
lemma usize_of_i64_of_nonneg {n : Int} (h0 : 0 ≤ n) (h1 : n < 2 ^ 64) :
    usize_of_i64 n = n.toNat := by
  unfold usize_of_i64
  rw [Int.emod_eq_of_lt h0 (by exact_mod_cast h1)]

/-- Wrapping u64 subtraction agrees with Nat subtraction when the
minuend is in range and at least the subtrahend. -/
lemma u64_sub_of_le {a b : Nat} (hba : b ≤ a) (ha : a < 2 ^ 64) :
    u64_sub a b = a - b := by
  unfold u64_sub
  have h1 : a + 2 ^ 64 - b = (a - b) + 2 ^ 64 := by omega
  have h2 : a - b < 2 ^ 64 := by omega
  rw [h1, Nat.add_mod_right, Nat.mod_eq_of_lt h2]

/-- Reading a key back after deleting it yields nothing. -/
lemma store_get_del (l : TicketStore) (k : String) :
    store_get (store_del l k) k = none := by
  induction l with
  | nil => rfl
  | cons hd tl ih =>
    unfold store_del at ih ⊢
    rw [List.filter_cons]
    by_cases hk : hd.1 = k <;> simpa [store_get, hk] using ih

/-- Folding addition of a mapped value equals the accumulator plus the
sum of the mapped list. -/
lemma foldl_add_map {α : Type} (f : α → ℚ) (l : List α) (a : ℚ) :
    l.foldl (fun acc x => acc + f x) a = a + (l.map f).sum := by
  induction l generalizing a with
  | nil => simp
  | cons hd tl ih => simp [List.foldl, ih (a + f hd)]; ring

-- ============================================
-- C1 fixtures and theorem
-- ============================================

/-- Concrete per-key guard configuration with scan_mode both, used as the
failing input for the X-Scan-Type header claim. -/
def c1_guard_config : GuardConfig :=
  { scan_mode := "both"
    input_scanners := [("prompt_injection",
      { enabled := true, threshold := 0.5, settings_json := "" })]
    output_scanners := [("toxicity",
      { enabled := true, threshold := 0.5, settings_json := "" })]
    sanitize := false
    fail_fast := false }

/-- Concrete API key carrying c1_guard_config. -/
def c1_key : ApiKeyInfo :=
  { id := 1
    organization_id := 1
    scopes := []
    rate_limit_rpm := 1000
    guard_config := some c1_guard_config }

/-- Concrete advanced-scan request with empty scanner maps, as in the
spec scenario for the X-Scan-Type header. -/
def c1_req : AdvancedScanRequest :=
  { prompt := "Hello"
    output := ""
    scan_mode := .PromptOnly
    input_scanners := []
    output_scanners := []
    sanitize := false
    fail_fast := false }

/-- C1: the claim says a request header X-Scan-Type with value prompt
narrows a both-configured key to prompt_only for that request. On the
code this fails: parse_scan_mode recognises only the literals
prompt_only, output_only and both, so the documented header value prompt
is unrecognised, the resolved mode stays Both, and the spec scenario
(empty output) is then rejected with MISSING_OUTPUT instead of running a
prompt-only scan. Only the undocumented literal prompt_only narrows. -/
theorem C1_xscantype_prompt_not_narrowed :
    parse_scan_mode "prompt" = none
  ∧ (resolve_scan_config c1_key (some "prompt") c1_req).scan_mode = ApiScanMode.Both
  ∧ advanced_scan_validate
      (resolve_scan_config c1_key (some "prompt") c1_req).scan_mode
      c1_req.prompt c1_req.output = some "MISSING_OUTPUT"
  ∧ (resolve_scan_config c1_key (some "prompt_only") c1_req).scan_mode
      = ApiScanMode.PromptOnly
  ∧ (resolve_scan_config c1_key none c1_req).scan_mode = ApiScanMode.Both := by
  refine ⟨rfl, rfl, by decide, rfl, rfl⟩

-- ============================================
-- C2 theorem and witness
-- ============================================

/-- C2: the claim says a NULL rate_limit_rpm column yields an effective
limit of 1000 requests per minute. On the code this fails: validate_api_key
maps NULL through unwrap_or(60), so the validated key carries
rate_limit_rpm = 60, the limiter the scan handlers invoke receives 60,
and a counter already at 60 is denied — whereas with the claimed limit of
1000 the same counter would be allowed. -/
theorem C2_null_rpm_defaults_to_60 (row : ApiKeyDbRow)
    (h : row.rate_limit_rpm = none) :
    validate_api_key (DbFetch.ok (some row)) = Except.ok (api_key_info_of_row row)
  ∧ (api_key_info_of_row row).rate_limit_rpm = 60
  ∧ (scan_prompt_rate_check (api_key_info_of_row row)
      { count := some 60, ttl := 30 }).1.1 = false
  ∧ (check_rate_limit { count := some 60, ttl := 30 } 1000
      RATE_LIMIT_WINDOW_SECONDS).1.1 = true := by
  refine ⟨rfl, ?_, ?_, by decide⟩
  · simp [api_key_info_of_row, h]
  · simp [scan_prompt_rate_check, api_key_info_of_row, h]
    decide

/-- Concrete api_key row with a NULL rate_limit_rpm column. -/
def c2_row : ApiKeyDbRow :=
  { id := 2
    organization_id := 1
    scopes := none
    rate_limit_rpm := none
    guard_config := none }

/-- Witness instantiating C2_null_rpm_defaults_to_60 at c2_row. -/
theorem C2_null_rpm_defaults_to_60_witness :
    c2_row.rate_limit_rpm = none
  ∧ (validate_api_key (DbFetch.ok (some c2_row))
      = Except.ok (api_key_info_of_row c2_row)
    ∧ (api_key_info_of_row c2_row).rate_limit_rpm = 60
    ∧ (scan_prompt_rate_check (api_key_info_of_row c2_row)
        { count := some 60, ttl := 30 }).1.1 = false
    ∧ (check_rate_limit { count := some 60, ttl := 30 } 1000
        RATE_LIMIT_WINDOW_SECONDS).1.1 = true) :=
  ⟨rfl, C2_null_rpm_defaults_to_60 c2_row rfl⟩

-- ============================================
-- C3 counterexample, amended theorem
-- ============================================

/-- Concrete api_key plan/quota row: a non-basic plan together with a
stored monthly_quota equal to the Basic default. -/
def c3_row : ApiKeyPlanRow :=
  { plan := some "pro", monthly_quota := some 10000 }

/-- C3 counterexample: for a key on plan pro whose stored monthly_quota
equals the Basic default, the code returns the stored monthly_quota
(10000), whereas the claimed resolution order demands the plan-derived
quota of step 2, so the two disagree. -/
theorem C3_quota_order_counterexample :
    lookup_api_key_quota (DbFetch.ok (some c3_row)) (DbFetch.ok none)
      (DbFetch.ok none) = 10000
  ∧ claim_quota_order c3_row (DbFetch.ok none) (DbFetch.ok none)
      = monthly_quota_for_plan "pro"
  ∧ lookup_api_key_quota (DbFetch.ok (some c3_row)) (DbFetch.ok none)
      (DbFetch.ok none)
      ≠ claim_quota_order c3_row (DbFetch.ok none) (DbFetch.ok none) := by
  refine ⟨?_, rfl, ?_⟩ <;> decide

/-- C3 amended: the quota is resolved as follows — when the api_key row
is readable: if api_key.plan is set and not basic, a set monthly_quota
wins outright (even when equal to the Basic default) and otherwise the
plan-derived quota is used; if the plan is basic or unset, a set
monthly_quota different from the Basic default wins; otherwise the
active subscription plan, then the organization plan, then
MONTHLY_QUOTA_BASIC. When the row is missing or unreadable the result is
MONTHLY_QUOTA_BASIC. -/
theorem C3_quota_order_amended (rowRes : DbFetch ApiKeyPlanRow)
    (subRes : DbFetch String) (orgRes : DbFetch (Option String)) :
    lookup_api_key_quota rowRes subRes orgRes =
      match rowRes with
      | .ok (some row) => amended_quota_order row subRes orgRes
      | _ => MONTHLY_QUOTA_BASIC := by
  cases rowRes with
  | ok row => cases row <;> rfl
  | err e => rfl

-- ============================================
-- C4 theorem and witness
-- ============================================

/-- C4: a single-scan response served from a cache hit with a
deserializable cached entry carries the freshly generated response id,
cached = true, the re-stamped timestamp, and the latency_ms of the
original cached inference; the queued audit entry records that same
original latency and cached = true. -/
theorem C4_cache_hit_preserves_latency (cached_response : ScanPromptResponse)
    (api_key : ApiKeyInfo) (prompt_hash req_prompt : String) (ip : Option String)
    (scan_options : String) (user_agent : Option String)
    (response_id entry_id now : Nat)
    (h : cached_response.latency_ms < 2 ^ 31) :
    (serve_from_cache cached_response api_key prompt_hash req_prompt ip
        scan_options user_agent response_id entry_id now).1.id = response_id
  ∧ (serve_from_cache cached_response api_key prompt_hash req_prompt ip
        scan_options user_agent response_id entry_id now).1.cached = true
  ∧ (serve_from_cache cached_response api_key prompt_hash req_prompt ip
        scan_options user_agent response_id entry_id now).1.timestamp = now
  ∧ (serve_from_cache cached_response api_key prompt_hash req_prompt ip
        scan_options user_agent response_id entry_id now).1.latency_ms
      = cached_response.latency_ms
  ∧ (serve_from_cache cached_response api_key prompt_hash req_prompt ip
        scan_options user_agent response_id entry_id now).1.threats
      = cached_response.threats
  ∧ (serve_from_cache cached_response api_key prompt_hash req_prompt ip
        scan_options user_agent response_id entry_id now).1.risk_score
      = cached_response.risk_score
  ∧ (serve_from_cache cached_response api_key prompt_hash req_prompt ip
        scan_options user_agent response_id entry_id now).2.latency_ms
      = (cached_response.latency_ms : Int)
  ∧ (serve_from_cache cached_response api_key prompt_hash req_prompt ip
        scan_options user_agent response_id entry_id now).2.cached = true := by
  refine ⟨rfl, rfl, rfl, rfl, rfl, rfl, ?_, rfl⟩
  exact i32_of_u64_of_lt h

/-- Concrete cached response used to instantiate C4. -/
def c4_cached : ScanPromptResponse :=
  { id := 7
    safe := false
    sanitized_prompt := none
    threats := [{ threat_type := "prompt_injection", confidence := 0.92
                  description := "detected", severity := "high" }]
    risk_score := 0.92
    latency_ms := 123
    cached := false
    timestamp := 1000
    threat_categories := some ["prompt_injection"] }

/-- Witness instantiating C4_cache_hit_preserves_latency at c4_cached. -/
theorem C4_cache_hit_preserves_latency_witness :
    c4_cached.latency_ms < 2 ^ 31
  ∧ ((serve_from_cache c4_cached c1_key "hash" "prompt text" none "{}" none
        8 9 2000).1.id = 8
    ∧ (serve_from_cache c4_cached c1_key "hash" "prompt text" none "{}" none
        8 9 2000).1.cached = true
    ∧ (serve_from_cache c4_cached c1_key "hash" "prompt text" none "{}" none
        8 9 2000).1.timestamp = 2000
    ∧ (serve_from_cache c4_cached c1_key "hash" "prompt text" none "{}" none
        8 9 2000).1.latency_ms = c4_cached.latency_ms
    ∧ (serve_from_cache c4_cached c1_key "hash" "prompt text" none "{}" none
        8 9 2000).1.threats = c4_cached.threats
    ∧ (serve_from_cache c4_cached c1_key "hash" "prompt text" none "{}" none
        8 9 2000).1.risk_score = c4_cached.risk_score
    ∧ (serve_from_cache c4_cached c1_key "hash" "prompt text" none "{}" none
        8 9 2000).2.latency_ms = (c4_cached.latency_ms : Int)
    ∧ (serve_from_cache c4_cached c1_key "hash" "prompt text" none "{}" none
        8 9 2000).2.cached = true) :=
  ⟨by decide,
   C4_cache_hit_preserves_latency c4_cached c1_key "hash" "prompt text" none "{}"
     none 8 9 2000 (by decide)⟩

-- ============================================
-- C5 theorem
-- ============================================

/-- C5: every audit entry constructed and queued by the service has
prompt_text = NULL exactly when is_safe is true, and an unsafe entry
always carries the scanned text, across all five construction sites. -/
theorem C5_prompt_text_absent_iff_safe (site : QueueSite) (advanced_mode : ApiScanMode)
    (organization_id api_key_id : Option Nat) (prompt_hash : String)
    (is_safe : Bool) (risk_score : ℚ) (threats : List ThreatDetection)
    (latency_ms : Int) (cached : Bool) (ip : Option String) (text : String)
    (threat_categories : List String) (scan_options : String)
    (user_agent : Option String) (sanitized : Option String)
    (response_id : Option Nat) (fresh_id now : Nat) :
    ((queued_entry site advanced_mode organization_id api_key_id prompt_hash
        is_safe risk_score threats latency_ms cached ip text threat_categories
        scan_options user_agent sanitized response_id fresh_id now).prompt_text
          = none
      ↔ is_safe = true)
  ∧ (is_safe = false →
      (queued_entry site advanced_mode organization_id api_key_id prompt_hash
        is_safe risk_score threats latency_ms cached ip text threat_categories
        scan_options user_agent sanitized response_id fresh_id now).prompt_text
          = some text) := by
  cases site <;> cases is_safe <;>
    simp [queued_entry, GuardLogEntry.new_scan, site_prompt_text_arg]

-- ============================================
-- C6 invariant and theorem
-- ============================================

/-- Reachability invariant of the circuit breaker: a Closed breaker has
strictly fewer than CIRCUIT_FAILURE_THRESHOLD recorded failures, and an
Open or HalfOpen breaker has at least that many. -/
def cb_inv (cb : CircuitBreaker) : Prop :=
  (cb.state = .Closed → cb.failure_count < CIRCUIT_FAILURE_THRESHOLD)
  ∧ (cb.state ≠ .Closed → CIRCUIT_FAILURE_THRESHOLD ≤ cb.failure_count)

/-- The initial breaker satisfies the invariant. -/
lemma cb_inv_init : cb_inv CircuitBreaker.init := by
  constructor
  · intro _
    decide
  · intro hs
    exact absurd rfl hs

/-- Every breaker transition preserves the invariant. -/
lemma cb_inv_step (cb : CircuitBreaker) (e : CbEvent) (h : cb_inv cb) :
    cb_inv (cb_step cb e) := by
  obtain ⟨h1, h2⟩ := h
  cases e with
  | success =>
    refine ⟨fun _ => ?_, fun hs => ?_⟩
    · simp [cb_step, CircuitBreaker.record_success, CIRCUIT_FAILURE_THRESHOLD]
    · exact absurd rfl hs
  | failure t =>
    simp only [cb_step, CircuitBreaker.record_failure]
    by_cases hc : cb.failure_count + 1 ≥ CIRCUIT_FAILURE_THRESHOLD
    · rw [if_pos hc]
      exact ⟨fun hs => by simp at hs, fun _ => hc⟩
    · rw [if_neg hc]
      refine ⟨fun hs => ?_, fun hs => ?_⟩
      · show cb.failure_count + 1 < CIRCUIT_FAILURE_THRESHOLD
        omega
      · have hge : CIRCUIT_FAILURE_THRESHOLD ≤ cb.failure_count := h2 hs
        show CIRCUIT_FAILURE_THRESHOLD ≤ cb.failure_count + 1
        omega
  | attempt t =>
    simp only [cb_step, CircuitBreaker.can_attempt]
    cases hs : cb.state with
    | Closed =>
      show cb_inv cb
      exact ⟨h1, h2⟩
    | Open =>
      have hne : cb.state ≠ CircuitState.Closed := by
        rw [hs]
        decide
      by_cases hr : u64_sub t cb.last_failure_time ≥ CIRCUIT_RESET_TIMEOUT_SECS
      · show cb_inv ((if u64_sub t cb.last_failure_time ≥ CIRCUIT_RESET_TIMEOUT_SECS
            then (true, { cb with state := CircuitState.HalfOpen })
            else (false, cb)).2)
        rw [if_pos hr]
        refine ⟨fun hcl => ?_, fun _ => h2 hne⟩
        exact CircuitState.noConfusion hcl
      · show cb_inv ((if u64_sub t cb.last_failure_time ≥ CIRCUIT_RESET_TIMEOUT_SECS
            then (true, { cb with state := CircuitState.HalfOpen })
            else (false, cb)).2)
        rw [if_neg hr]
        exact ⟨h1, h2⟩
    | HalfOpen =>
      show cb_inv cb
      exact ⟨h1, h2⟩

/-- The invariant holds along any fold of breaker events. -/
lemma cb_inv_foldl (tr : List CbEvent) (cb : CircuitBreaker) (h : cb_inv cb) :
    cb_inv (tr.foldl cb_step cb) := by
  induction tr generalizing cb with
  | nil => exact h
  | cons e tl ih => exact ih (cb_step cb e) (cb_inv_step cb e h)

/-- Every breaker reachable from the initial state satisfies the
invariant. -/
lemma cb_run_inv (tr : List CbEvent) : cb_inv (cb_run tr) :=
  cb_inv_foldl tr CircuitBreaker.init cb_inv_init

/-- C6: the breaker follows the claimed three-state machine on every
reachable state. A success always clears the counter and closes the
circuit. From Closed, a failure increments the counter and opens the
circuit exactly when the counter reaches the threshold of 5. In Open,
an attempt is admitted exactly when 30 seconds have elapsed since the
last failure, in which case the breaker moves to HalfOpen, and is
otherwise denied with the breaker unchanged. From HalfOpen, a failure
returns the breaker to Open and a success returns it to Closed with the
counter reset. -/
theorem C6_circuit_breaker_machine (tr : List CbEvent) (cb : CircuitBreaker)
    (t : Nat) (hcb : cb = cb_run tr) (ht : cb.last_failure_time ≤ t)
    (hw : t < 2 ^ 64) :
    (cb.record_success.failure_count = 0 ∧ cb.record_success.state = .Closed)
  ∧ (cb.state = .Closed →
      (cb.record_failure t).failure_count = cb.failure_count + 1
      ∧ ((cb.record_failure t).state = .Open
          ↔ cb.failure_count + 1 = CIRCUIT_FAILURE_THRESHOLD))
  ∧ (cb.state = .Open →
      ((cb.can_attempt t).1 = true
          ↔ CIRCUIT_RESET_TIMEOUT_SECS ≤ t - cb.last_failure_time)
      ∧ ((cb.can_attempt t).1 = true → (cb.can_attempt t).2.state = .HalfOpen)
      ∧ ((cb.can_attempt t).1 = false → (cb.can_attempt t).2 = cb))
  ∧ (cb.state = .HalfOpen →
      (cb.record_failure t).state = .Open
      ∧ cb.record_success.state = .Closed
      ∧ cb.record_success.failure_count = 0) := by
  have hinv : cb_inv cb := hcb ▸ cb_run_inv tr
  obtain ⟨hinv1, hinv2⟩ := hinv
  have hsub : u64_sub t cb.last_failure_time = t - cb.last_failure_time :=
    u64_sub_of_le ht hw
  refine ⟨⟨rfl, rfl⟩, ?_, ?_, ?_⟩
  · intro hclosed
    have hlt := hinv1 hclosed
    constructor
    · by_cases hc : cb.failure_count + 1 ≥ CIRCUIT_FAILURE_THRESHOLD <;>
        simp [CircuitBreaker.record_failure, hc]
    · by_cases hc : cb.failure_count + 1 ≥ CIRCUIT_FAILURE_THRESHOLD
      · have hstate : (cb.record_failure t).state = CircuitState.Open := by
          simp [CircuitBreaker.record_failure, if_pos hc]
        constructor
        · intro _
          omega
        · intro _
          exact hstate
      · have hstate : (cb.record_failure t).state = cb.state := by
          simp [CircuitBreaker.record_failure, if_neg hc]
        constructor
        · intro hcontra
          rw [hstate, hclosed] at hcontra
          exact CircuitState.noConfusion hcontra
        · intro heq
          omega
  · intro hopen
    simp only [CircuitBreaker.can_attempt, hopen, hsub]
    by_cases hr : CIRCUIT_RESET_TIMEOUT_SECS ≤ t - cb.last_failure_time
    · rw [if_pos hr]
      exact ⟨by simp [hr], fun _ => rfl, fun hcontra => by simp at hcontra⟩
    · rw [if_neg hr]
      exact ⟨by simp [hr], fun hcontra => by simp at hcontra, fun _ => rfl⟩
  · intro hhalf
    have hge : CIRCUIT_FAILURE_THRESHOLD ≤ cb.failure_count := by
      apply hinv2
      rw [hhalf]
      intro hcontra
      exact CircuitState.noConfusion hcontra
    refine ⟨?_, rfl, rfl⟩
    have hc : cb.failure_count + 1 ≥ CIRCUIT_FAILURE_THRESHOLD := by omega
    simp only [CircuitBreaker.record_failure, if_pos hc]

/-- Concrete event trace driving the breaker to Open with exactly five
consecutive failures at time 0. -/
def c6_trace : List CbEvent :=
  [.failure 10, .failure 10, .failure 10, .failure 10, .failure 10]

/-- Witness instantiating C6_circuit_breaker_machine on the breaker
reached by c6_trace, probed at time 41. -/
theorem C6_circuit_breaker_machine_witness :
    (cb_run c6_trace).last_failure_time ≤ 41
  ∧ 41 < 2 ^ 64
  ∧ (((cb_run c6_trace).record_success.failure_count = 0
      ∧ (cb_run c6_trace).record_success.state = .Closed)
    ∧ ((cb_run c6_trace).state = .Closed →
        ((cb_run c6_trace).record_failure 41).failure_count
            = (cb_run c6_trace).failure_count + 1
        ∧ (((cb_run c6_trace).record_failure 41).state = .Open
            ↔ (cb_run c6_trace).failure_count + 1 = CIRCUIT_FAILURE_THRESHOLD))
    ∧ ((cb_run c6_trace).state = .Open →
        (((cb_run c6_trace).can_attempt 41).1 = true
            ↔ CIRCUIT_RESET_TIMEOUT_SECS ≤ 41 - (cb_run c6_trace).last_failure_time)
        ∧ (((cb_run c6_trace).can_attempt 41).1 = true →
            ((cb_run c6_trace).can_attempt 41).2.state = .HalfOpen)
        ∧ (((cb_run c6_trace).can_attempt 41).1 = false →
            ((cb_run c6_trace).can_attempt 41).2 = cb_run c6_trace))
    ∧ ((cb_run c6_trace).state = .HalfOpen →
        ((cb_run c6_trace).record_failure 41).state = .Open
        ∧ (cb_run c6_trace).record_success.state = .Closed
        ∧ (cb_run c6_trace).record_success.failure_count = 0)) :=
  ⟨by decide, by decide,
   C6_circuit_breaker_machine c6_trace (cb_run c6_trace) 41 rfl (by decide)
     (by decide)⟩

-- ============================================
-- C7 theorem and witness
-- ============================================

/-- C7: an SSE ticket is single-use. When the ticket key is live in the
store, the first redemption succeeds with the stored identity and
atomically removes the key, so a second redemption of the same ticket is
rejected with 401 TICKET_INVALID; an empty ticket parameter is always
rejected with 401 TICKET_INVALID. -/
theorem C7_ticket_single_use (store : TicketStore) (ticket : String)
    (payload : SseTicketPayload) (hne : ticket ≠ "")
    (hfound : store_get store (sse_ticket_key ticket) = some payload) :
    (guard_events_ticket_auth store ticket).1 = TicketAuthOutcome.authed
      { user_id := payload.user_id
        email := payload.email
        name := payload.name
        session_id := payload.session_id }
  ∧ (guard_events_ticket_auth (guard_events_ticket_auth store ticket).2
      ticket).1 = TicketAuthOutcome.ticketInvalid401
  ∧ (∀ s : TicketStore,
      (guard_events_ticket_auth s "").1 = TicketAuthOutcome.ticketInvalid401) := by
  refine ⟨?_, ?_, ?_⟩
  · simp [guard_events_ticket_auth, hne, redeem_sse_ticket, ticket_getdel, hfound]
  · simp [guard_events_ticket_auth, hne, redeem_sse_ticket, ticket_getdel, hfound,
      store_get_del]
  · intro s
    simp [guard_events_ticket_auth]

/-- Concrete ticket payload for the C7 witness. -/
def c7_payload : SseTicketPayload :=
  { user_id := "user-1"
    email := "user@example.com"
    name := none
    session_id := "sess-1" }

/-- Concrete ticket store holding one live ticket. -/
def c7_store : TicketStore :=
  [(sse_ticket_key "t-1", c7_payload)]

/-- Witness instantiating C7_ticket_single_use on a one-ticket store. -/
theorem C7_ticket_single_use_witness :
    "t-1" ≠ ""
  ∧ store_get c7_store (sse_ticket_key "t-1") = some c7_payload
  ∧ ((guard_events_ticket_auth c7_store "t-1").1 = TicketAuthOutcome.authed
      { user_id := c7_payload.user_id
        email := c7_payload.email
        name := c7_payload.name
        session_id := c7_payload.session_id }
    ∧ (guard_events_ticket_auth (guard_events_ticket_auth c7_store "t-1").2
        "t-1").1 = TicketAuthOutcome.ticketInvalid401
    ∧ (∀ s : TicketStore,
        (guard_events_ticket_auth s "").1 = TicketAuthOutcome.ticketInvalid401)) :=
  ⟨by decide, by decide,
   C7_ticket_single_use c7_store "t-1" c7_payload (by decide) (by decide)⟩

-- ============================================
-- C8 theorem
-- ============================================

/-- C8: the risk score stored on a completed Garak scan equals the
severity-weighted average of the reported vulnerabilities capped at 1,
with contributions critical 1, high 0.75, medium 0.5, low 0.25 and 0.1
otherwise, and equals 0 for an empty vulnerability list. -/
theorem C8_risk_score_capped_average (vulnerabilities : List VulnerabilityInfo) :
    completed_scan_risk_score vulnerabilities =
      if vulnerabilities = [] then 0
      else
        min 1 ((vulnerabilities.map
            (fun v => severity_contribution v.severity)).sum
          / (vulnerabilities.length : ℚ)) := by
  unfold completed_scan_risk_score calculate_risk_score
  cases vulnerabilities with
  | nil => simp
  | cons hd tl =>
    rw [foldl_add_map]
    simp [min_comm]

-- ============================================
-- C9 theorem and witness
-- ============================================

/-- C9: the Garak concurrency gate fails open on storage errors — when
the COUNT of queued or running scans cannot be read, the active count is
treated as 0 and admission proceeds — while for a successful count the
request is rejected with TOO_MANY_SCANS exactly when the count is at
least MAX_CONCURRENT_SCANS = 4. -/
theorem C9_concurrency_gate_fails_open (e : String) (n : Int)
    (h0 : 0 ≤ n) (h1 : n < 2 ^ 63) :
    start_scan_concurrency_gate (Except.error e) = ConcurrencyGate.proceed
  ∧ (start_scan_concurrency_gate (Except.ok n) = ConcurrencyGate.tooManyScans429
      ↔ (MAX_CONCURRENT_SCANS : Int) ≤ n) := by
  constructor
  · rfl
  · show (if usize_of_i64 n ≥ MAX_CONCURRENT_SCANS
        then ConcurrencyGate.tooManyScans429
        else ConcurrencyGate.proceed) = ConcurrencyGate.tooManyScans429
      ↔ (MAX_CONCURRENT_SCANS : Int) ≤ n
    rw [usize_of_i64_of_nonneg h0 (lt_trans h1 (by norm_num))]
    by_cases hge : MAX_CONCURRENT_SCANS ≤ n.toNat
    · rw [if_pos hge]
      simp only [true_iff]
      omega
    · rw [if_neg hge]
      constructor
      · intro hcontra
        exact ConcurrencyGate.noConfusion hcontra
      · intro hle
        exact absurd (by omega : MAX_CONCURRENT_SCANS ≤ n.toNat) hge

/-- Witness instantiating C9_concurrency_gate_fails_open at count 4. -/
theorem C9_concurrency_gate_fails_open_witness :
    (0 : Int) ≤ 4
  ∧ (4 : Int) < 2 ^ 63
  ∧ (start_scan_concurrency_gate (Except.error "connection reset")
        = ConcurrencyGate.proceed
    ∧ (start_scan_concurrency_gate (Except.ok 4) = ConcurrencyGate.tooManyScans429
        ↔ (MAX_CONCURRENT_SCANS : Int) ≤ 4)) :=
  ⟨by decide, by decide,
   C9_concurrency_gate_fails_open "connection reset" 4 (by decide) (by decide)⟩

-- ============================================
-- C10 theorem and witness
-- ============================================

/-- C10: a successfully scanned batch item is reported in the HTTP
response with latency_ms = 0 and cached = false, while the audit entry
queued for the same item records the total wall-clock latency of the
whole batch, with request_type batch. -/
theorem C10_batch_item_latency (idx : Nat) (item_id : Option String)
    (prompt : String) (result : GrpcScanResult) (fresh_id now : Nat)
    (api_key : ApiKeyInfo) (total_latency_ms : Nat) (client_ip : Option String)
    (prompt_hash scan_options : String) (user_agent : Option String)
    (entry_id entry_now : Nat)
    (hprompt : is_blank prompt = false)
    (hlen : ¬ prompt.length > 32 * 1024)
    (htot : total_latency_ms < 2 ^ 31) :
    (batch_item idx item_id prompt (Except.ok result) fresh_id now).success = true
  ∧ ((batch_item idx item_id prompt (Except.ok result) fresh_id now).result.map
      (fun r => (r.latency_ms, r.cached))) = some (0, false)
  ∧ ((batch_audit_entry api_key prompt
        (batch_item idx item_id prompt (Except.ok result) fresh_id now)
        total_latency_ms client_ip prompt_hash scan_options user_agent
        entry_id entry_now).map
      (fun en => (en.latency_ms, en.cached, en.request_type)))
      = some ((total_latency_ms : Int), false, "batch") := by
  refine ⟨?_, ?_, ?_⟩
  · simp [batch_item, hprompt, hlen]
  · simp [batch_item, hprompt, hlen]
  · simp [batch_item, batch_audit_entry, hprompt, hlen, GuardLogEntry.new_scan,
      i32_of_u64_of_lt htot]

/-- Concrete sidecar result for the C10 witness. -/
def c10_result : GrpcScanResult :=
  { safe := false
    sanitized_prompt := none
    risk_score := 0.9
    threats := [{ threat_type := "prompt_injection", confidence := 0.9
                  description := "detected", severity := "high" }] }

/-- Witness instantiating C10_batch_item_latency on one batch item. -/
theorem C10_batch_item_latency_witness :
    is_blank "Hello there" = false
  ∧ ¬ "Hello there".length > 32 * 1024
  ∧ 42 < 2 ^ 31
  ∧ ((batch_item 0 none "Hello there" (Except.ok c10_result) 5 100).success = true
    ∧ ((batch_item 0 none "Hello there" (Except.ok c10_result) 5 100).result.map
        (fun r => (r.latency_ms, r.cached))) = some (0, false)
    ∧ ((batch_audit_entry c1_key "Hello there"
          (batch_item 0 none "Hello there" (Except.ok c10_result) 5 100)
          42 none "hash" "{}" none 6 101).map
        (fun en => (en.latency_ms, en.cached, en.request_type)))
        = some ((42 : Int), false, "batch")) :=
  ⟨by decide, by decide, by decide,
   C10_batch_item_latency 0 none "Hello there" c10_result 5 100 c1_key 42 none
     "hash" "{}" none 6 101 (by decide) (by decide) (by decide)⟩

end Orafinite
